import Mathlib

/-!
Verification development for the space-invaders state-transition engine
(`src/spaceinvaders.ts`).  The shallow embedding below mirrors the source:
JavaScript numbers are modelled as rationals (all arithmetic performed by the
engine — addition, subtraction, small multiplications, `min`/`max`, `abs` — is
exact on the values that arise), JavaScript strings as `String`, arrays as
`List`, and the optional input fields as `Option`.  The 32-bit hash is modelled
over `Nat` with explicit reduction modulo 2^32.
-/

-- Vec2 is an immutable 2 dimensional vector (class `Vec2` in the source).
structure Vec2 where
  x : ℚ
  y : ℚ
  deriving DecidableEq, Repr

-- Make x and y positive.
def Vec2.abs (v : Vec2) : Vec2 := ⟨|v.x|, |v.y|⟩

-- Scale x and y by s.
def Vec2.scale (v : Vec2) (s : ℚ) : Vec2 := ⟨v.x * s, v.y * s⟩

-- Return the result of vector addition with v.
def Vec2.add (v w : Vec2) : Vec2 := ⟨v.x + w.x, v.y + w.y⟩

-- range(n) returns an array with values [0..n-1].
def range (n : ℕ) : List ℕ := List.range n

-- cartesian(s, t): cartesian product between array s and array t,
-- written in the source as a reduce over s appending t.map each time.
def cartesian {S T : Type} (s : List S) (t : List T) : List (S × T) :=
  s.foldl (fun acc se => acc ++ t.map (fun te => (se, te))) []

-- 2^32, the range bound of the JavaScript unsigned 32-bit hash.
def UINT32 : ℕ := 4294967296

-- Math.imul with an unsigned-32-bit view: multiply and wrap modulo 2^32.
def imul32 (a b : ℕ) : ℕ := (a * b) % UINT32

-- simpleHash is the source's fast insecure hash, returning a value in [0, 2^32).
-- `charCodeAt` agrees with `Char.toNat` on the ASCII strings the engine hashes.
def simpleHash (s : String) : ℕ :=
  let h := s.data.foldl (fun acc c => imul32 (acc ^^^ c.toNat) 2654435761) 0xdeadbeef
  (h ^^^ (h / 65536)) % UINT32

-- Abstract rectangle (interface `Rectangle` in the source; the source uses
-- structural typing, modelled here by explicit `.rect` views on each entity).
structure Rect where
  pos : Vec2
  width : ℚ
  height : ℚ
  deriving DecidableEq, Repr

-- rectangleRectangleCollide evaluates: Rectangle r1 and Rectangle r2 overlaps.
def rectangleRectangleCollide (r1 r2 : Rect) : Bool :=
  decide (r1.pos.x + r1.width > r2.pos.x) &&
  decide (r1.pos.x < r2.pos.x + r2.width) &&
  decide (r1.pos.y + r1.height > r2.pos.y) &&
  decide (r1.pos.y < r2.pos.y + r2.height)

inductive BulletShooter where
  | PLAYER
  | ALIEN
  deriving DecidableEq, Repr

structure Player where
  pos : Vec2
  width : ℚ
  height : ℚ
  deriving DecidableEq, Repr

-- `character` is a JavaScript string in the model: the source casts arbitrary
-- uppercased key strings to its `Character` union type.
structure Alien where
  pos : Vec2
  width : ℚ
  height : ℚ
  character : String
  deriving DecidableEq, Repr

structure Bullet where
  shooter : BulletShooter
  pos : Vec2
  vel : Vec2
  width : ℚ
  height : ℚ
  character : String
  deriving DecidableEq, Repr

structure Shield where
  pos : Vec2
  width : ℚ
  height : ℚ
  deriving DecidableEq, Repr

structure State where
  gameRunning : Bool
  level : ℚ
  player : Player
  aliens : List Alien
  alienVel : Vec2
  bullets : List Bullet
  shields : List Shield
  score : ℚ
  ammo : ℚ
  ammoRegenTimer : ℚ
  message : String
  deriving DecidableEq, Repr

structure Mouse where
  pos : Vec2
  deriving DecidableEq, Repr

structure Keyboard where
  key : String
  deriving DecidableEq, Repr

structure Input where
  mouse : Option Mouse := none
  keyboard : Option Keyboard := none
  deriving DecidableEq, Repr

def Player.rect (p : Player) : Rect := ⟨p.pos, p.width, p.height⟩

def Alien.rect (a : Alien) : Rect := ⟨a.pos, a.width, a.height⟩

def Bullet.rect (b : Bullet) : Rect := ⟨b.pos, b.width, b.height⟩

def Shield.rect (s : Shield) : Rect := ⟨s.pos, s.width, s.height⟩

-- Constants -------------------------------------------------------------

def FRAME_TIME : ℚ := 10

def ABC : String := "ABCDEFGHIJKLMNOPQRSTUVWXYZ"

-- Screen x of the play area's origin (`CANVAS.getBoundingClientRect().x` in
-- the source).  Environment-dependent in the browser; modelled as 0, the
-- play area's own origin.  No claim depends on its value.
def CANVAS_POS_X : ℚ := 0

def CANVAS_WIDTH : ℚ := 600

def CANVAS_HEIGHT : ℚ := 600

def PLAYER_POS_INIT : Vec2 := ⟨270, 540⟩

def PLAYER_WIDTH : ℚ := 48

def PLAYER_HEIGHT : ℚ := 32

def ALIEN_WIDTH : ℚ := 24

def ALIEN_HEIGHT : ℚ := 20

def ALIEN_SPACING : Vec2 := ⟨64, 48⟩

def ALIEN_DROP_AMOUNT : ℚ := 30

def ALIEN_ROWS : ℕ := 4

def ALIEN_COLS : ℕ := 6

def ALIEN_POS_INIT : Vec2 := ⟨10, 10⟩

def ALIEN_VEL_INIT : Vec2 := ⟨1, 0⟩

def ALIEN_VEL_INC : Vec2 := ⟨1/2, 1/10⟩

def ALIEN_SHOOT_PROB : ℚ := 1/1000

def BULLET_WIDTH : ℚ := 14

def BULLET_HEIGHT : ℚ := 14

def BULLET_SPEED : ℚ := 3

def SHIELD_COUNT : ℕ := 4

def SHIELD_POS : Vec2 := ⟨0, 500⟩

def SHIELD_SPACING : ℚ := 140

def SHIELD_WIDTH : ℚ := 80

def SHIELD_HEIGHT : ℚ := 32

def SHIELD_HEIGHT_REDUCTION : ℚ := 2

def SCORE_SHOOT_DECREMENT : ℚ := 20

def SCORE_ALIEN_KILL : ℚ := 100

def SCORE_ALIEN_KILL_CHAR_MATCH : ℚ := 400

def AMMO_MAX : ℚ := 20

def AMMO_REGEN_AMOUNT : ℚ := 4

def AMMO_REGEN_TIMER : ℚ := 1000 / FRAME_TIME

def MESSAGE_INIT : String := "Press [Enter] to play."

-- JSON serialization ----------------------------------------------------
-- The source seeds the hash with `JSON.stringify` of states, aliens and
-- index pairs.  The functions below reproduce `JSON.stringify` for the value
-- shapes the engine serializes (object keys in insertion order, which the
-- spread-based state updates preserve).  Number formatting follows
-- JavaScript for the integers and short decimals that the engine produces.

def padZeros (k : ℕ) (s : String) : String :=
  String.mk (List.replicate (k - s.length) '0') ++ s

-- Smallest k with den dividing 10^k, when one exists below the search bound.
def pow10Exp (den : ℕ) : Option ℕ :=
  (List.range 40).find? (fun k => 10 ^ k % den == 0)

def jsonNum (q : ℚ) : String :=
  let sign := if q.num < 0 then "-" else ""
  let n := q.num.natAbs
  if q.den = 1 then sign ++ toString n
  else
    match pow10Exp q.den with
    | some k =>
        let m := n * (10 ^ k / q.den)
        sign ++ toString (m / 10 ^ k) ++ "." ++ padZeros k (toString (m % 10 ^ k))
    | none => sign ++ toString n ++ "/" ++ toString q.den

def jsonEscape (s : String) : String :=
  String.mk (s.data.foldr (fun c acc =>
    if c = '"' then '\\' :: '"' :: acc
    else if c = '\\' then '\\' :: '\\' :: acc
    else c :: acc) [])

def jsonStr (s : String) : String := "\"" ++ jsonEscape s ++ "\""

def jsonBool (b : Bool) : String := if b then "true" else "false"

def jsonArr {α : Type} (f : α → String) (l : List α) : String :=
  "[" ++ String.intercalate "," (l.map f) ++ "]"

-- JSON.stringify([i, j]) for the grid indices used in INITIAL_STATE.
def jsonPairNat (i j : ℕ) : String :=
  "[" ++ toString i ++ "," ++ toString j ++ "]"

def shooterString : BulletShooter → String
  | BulletShooter.PLAYER => "PLAYER"
  | BulletShooter.ALIEN => "ALIEN"

def jsonVec2 (v : Vec2) : String :=
  "\x7b\"x\":" ++ jsonNum v.x ++ ",\"y\":" ++ jsonNum v.y ++ "\x7d"

def jsonPlayer (p : Player) : String :=
  "\x7b\"pos\":" ++ jsonVec2 p.pos ++ ",\"width\":" ++ jsonNum p.width ++
  ",\"height\":" ++ jsonNum p.height ++ "\x7d"

def jsonAlien (a : Alien) : String :=
  "\x7b\"pos\":" ++ jsonVec2 a.pos ++ ",\"width\":" ++ jsonNum a.width ++
  ",\"height\":" ++ jsonNum a.height ++ ",\"character\":" ++ jsonStr a.character ++ "\x7d"

def jsonBullet (b : Bullet) : String :=
  "\x7b\"shooter\":" ++ jsonStr (shooterString b.shooter) ++
  ",\"pos\":" ++ jsonVec2 b.pos ++ ",\"vel\":" ++ jsonVec2 b.vel ++
  ",\"width\":" ++ jsonNum b.width ++ ",\"height\":" ++ jsonNum b.height ++
  ",\"character\":" ++ jsonStr b.character ++ "\x7d"

def jsonShield (s : Shield) : String :=
  "\x7b\"pos\":" ++ jsonVec2 s.pos ++ ",\"width\":" ++ jsonNum s.width ++
  ",\"height\":" ++ jsonNum s.height ++ "\x7d"

def jsonState (s : State) : String :=
  "\x7b\"gameRunning\":" ++ jsonBool s.gameRunning ++
  ",\"level\":" ++ jsonNum s.level ++
  ",\"player\":" ++ jsonPlayer s.player ++
  ",\"aliens\":" ++ jsonArr jsonAlien s.aliens ++
  ",\"alienVel\":" ++ jsonVec2 s.alienVel ++
  ",\"bullets\":" ++ jsonArr jsonBullet s.bullets ++
  ",\"shields\":" ++ jsonArr jsonShield s.shields ++
  ",\"score\":" ++ jsonNum s.score ++
  ",\"ammo\":" ++ jsonNum s.ammo ++
  ",\"ammoRegenTimer\":" ++ jsonNum s.ammoRegenTimer ++
  ",\"message\":" ++ jsonStr s.message ++ "\x7d"

-- `Oh no. Score: ${score}. Press [Enter] to play.`
def MESSAGE_SCORE (score : ℚ) : String :=
  "Oh no. Score: " ++ jsonNum score ++ ". " ++ MESSAGE_INIT

-- World initializer -----------------------------------------------------

-- ABC[n] as a one-character string (n is always reduced mod ABC.length).
def abcIndex (n : ℕ) : String := String.singleton (ABC.data.getD n 'A')

def SHIELD_OFFSET : ℚ :=
  let shieldGap := SHIELD_SPACING - SHIELD_WIDTH
  let totalShieldWidth := (SHIELD_COUNT : ℚ) * SHIELD_SPACING - shieldGap
  CANVAS_WIDTH / 2 - totalShieldWidth / 2

-- INITIAL_STATE initialise game state based on a seed.
def INITIAL_STATE (seed : String) : State :=
  { gameRunning := false
  , level := 1
  , player := { pos := PLAYER_POS_INIT, width := PLAYER_WIDTH, height := PLAYER_HEIGHT }
  , aliens := (cartesian (range ALIEN_ROWS) (range ALIEN_COLS)).map (fun ij =>
      { pos := ⟨ALIEN_POS_INIT.x + (ij.2 : ℚ) * ALIEN_SPACING.x,
                ALIEN_POS_INIT.y + (ij.1 : ℚ) * ALIEN_SPACING.y⟩
      , width := ALIEN_WIDTH
      , height := ALIEN_HEIGHT
      , character := abcIndex (simpleHash (seed ++ jsonPairNat ij.1 ij.2) % ABC.length) })
  , alienVel := ALIEN_VEL_INIT
  , bullets := []
  , shields := (range SHIELD_COUNT).map (fun i =>
      { pos := ⟨SHIELD_POS.x + (i : ℚ) * SHIELD_SPACING + SHIELD_OFFSET, SHIELD_POS.y⟩
      , width := SHIELD_WIDTH
      , height := SHIELD_HEIGHT })
  , score := 0
  , ammo := AMMO_MAX
  , ammoRegenTimer := AMMO_REGEN_TIMER
  , message := MESSAGE_INIT }

-- Transition pipeline stages --------------------------------------------

-- `input.keyboard?.key === "Enter"`.
def inputEnterKey (input : Input) : Bool :=
  match input.keyboard with
  | some kb => kb.key == "Enter"
  | none => false

-- String.prototype.toUpperCase restricted to ASCII (the only characters the
-- engine's alphabet test can accept).
def jsUpperChar (c : Char) : Char :=
  if 'a' ≤ c ∧ c ≤ 'z' then Char.ofNat (c.toNat - 32) else c

def jsToUpper (s : String) : String := String.mk (s.data.map jsUpperChar)

-- Does hay start with needle?
def listStartsWith : List Char → List Char → Bool
  | _, [] => true
  | [], _ :: _ => false
  | h :: t, nh :: nt => h == nh && listStartsWith t nt

-- Does needle occur contiguously inside hay?
def listContainsSeq (hay needle : List Char) : Bool :=
  match hay with
  | [] => needle.isEmpty
  | _ :: t => listStartsWith hay needle || listContainsSeq t needle

-- String.prototype.includes: substring containment.
def jsIncludes (hay needle : String) : Bool := listContainsSeq hay.data needle.data

-- playerShoot creates a bullet at the player's position.
-- And decreases score by SCORE_SHOOT_DECREMENT.
def playerShoot (state : State) (input : Input) : State :=
  match input.keyboard with
  | none => state
  | some kb =>
    let char := jsToUpper kb.key
    if jsIncludes ABC char = false then state
    else if state.ammo ≤ 0 then state
    else
      let bulletPosX := state.player.pos.x + state.player.width / 2 - BULLET_WIDTH / 2
      let bulletPosY := state.player.pos.y
      let bullet : Bullet :=
        { shooter := BulletShooter.PLAYER
        , pos := ⟨bulletPosX, bulletPosY⟩
        , vel := ⟨0, -BULLET_SPEED⟩
        , width := BULLET_WIDTH
        , height := BULLET_HEIGHT
        , character := char }
      { state with
          bullets := state.bullets ++ [bullet]
        , ammo := state.ammo - 1
        , score := state.score - SCORE_SHOOT_DECREMENT }

-- The per-alien per-frame pseudo-random hash used twice by alienShoot.
def alienPseudoRandom (state : State) (alien : Alien) : ℕ :=
  simpleHash (jsonState state ++ jsonAlien alien)

-- alienShoot creates a Bullet from each alien with probability ALIEN_SHOOT_PROB.
def alienShoot (state : State) (_input : Input) : State :=
  let shootingAliens := state.aliens.filter (fun alien =>
    decide ((alienPseudoRandom state alien : ℚ) / 2 ^ 32 < ALIEN_SHOOT_PROB))
  let alienBullets : List Bullet := shootingAliens.map (fun alien =>
    { shooter := BulletShooter.ALIEN
    , pos := ⟨alien.pos.x + alien.width - BULLET_WIDTH / 2,
              alien.pos.y + alien.height - BULLET_HEIGHT⟩
    , vel := ⟨0, BULLET_SPEED⟩
    , width := BULLET_WIDTH
    , height := BULLET_HEIGHT
    , character := abcIndex (alienPseudoRandom state alien % ABC.length) })
  { state with bullets := state.bullets ++ alienBullets }

-- movePlayer updates player position.
def movePlayer (state : State) (input : Input) : State :=
  match input.mouse with
  | none => state
  | some m =>
    let cursorX := m.pos.x - CANVAS_POS_X
    let playerPosX := min (max 0 (cursorX - state.player.width / 2))
      (CANVAS_WIDTH - state.player.width)
    { state with player := { state.player with pos := ⟨playerPosX, state.player.pos.y⟩ } }

-- moveAlien updates aliens positions and velocities.
def moveAlien (state : State) (_input : Input) : State :=
  let lr := state.aliens.foldl
    (fun (p : ℚ × ℚ) alien => (min p.1 alien.pos.x, max p.2 alien.pos.x))
    (CANVAS_WIDTH, 0)
  let leftMost := lr.1
  let rightMost := lr.2
  let hitLeftWall := decide (leftMost + state.alienVel.x < 0)
  let hitRightWall := decide (rightMost + ALIEN_WIDTH + state.alienVel.x > CANVAS_WIDTH)
  let alienVel := if hitLeftWall || hitRightWall
    then Vec2.mk (-1 * state.alienVel.x) state.alienVel.y
    else state.alienVel
  let alienPosXOffset :=
    if hitLeftWall then 0 - leftMost
    else if hitRightWall then CANVAS_WIDTH - ALIEN_WIDTH - rightMost
    else alienVel.x
  let aliens := state.aliens.map (fun alien =>
    let alienPosX := alien.pos.x + alienPosXOffset
    let alienPosY := if hitLeftWall || hitRightWall
      then alien.pos.y + ALIEN_DROP_AMOUNT
      else alien.pos.y + alienVel.y
    { alien with pos := ⟨alienPosX, alienPosY⟩ })
  { state with aliens := aliens, alienVel := alienVel }

-- moveBullet updates bullet positions.
def moveBullet (state : State) (_input : Input) : State :=
  { state with bullets := state.bullets.map (fun b => { b with pos := b.pos.add b.vel }) }

-- removeBullet removes out of screen bullets.
def removeBullet (state : State) (_input : Input) : State :=
  { state with bullets := state.bullets.filter (fun b => decide (b.pos.y > 0)) }

-- playerAlienCollision ends the game if the player collides with any alien.
def playerAlienCollision (state : State) (_input : Input) : State :=
  let collide := state.aliens.any (fun a =>
    rectangleRectangleCollide state.player.rect a.rect)
  if collide = false then state
  else { state with gameRunning := false, message := MESSAGE_SCORE state.score }

-- playerBulletCollision ends the game if the player collides with any alien bullet.
def playerBulletCollision (state : State) (_input : Input) : State :=
  let collide := state.bullets.any (fun b =>
    decide (b.shooter ≠ BulletShooter.PLAYER) &&
    rectangleRectangleCollide state.player.rect b.rect)
  if collide = false then state
  else { state with gameRunning := false, message := MESSAGE_SCORE state.score }

-- alienBulletCollision removes alien and bullet that collided and increments score.
def alienBulletCollision (state : State) (_input : Input) : State :=
  let aliens := state.aliens.filter (fun a =>
    !(state.bullets.any (fun b =>
      decide (b.shooter ≠ BulletShooter.ALIEN) && rectangleRectangleCollide a.rect b.rect)))
  let bullets := state.bullets.filter (fun b =>
    !(state.aliens.any (fun a =>
      decide (b.shooter ≠ BulletShooter.ALIEN) && rectangleRectangleCollide a.rect b.rect)))
  let score := state.aliens.foldl (fun scoreA a =>
    state.bullets.foldl (fun scoreB b =>
      if decide (b.shooter ≠ BulletShooter.ALIEN) && rectangleRectangleCollide a.rect b.rect
      then (if a.character = b.character
            then scoreB + SCORE_ALIEN_KILL_CHAR_MATCH
            else scoreB + SCORE_ALIEN_KILL)
      else scoreB) scoreA) state.score
  { state with aliens := aliens, bullets := bullets, score := score }

-- shieldBulletCollision reduces height of shield for each bullet it collides with.
def shieldBulletCollision (state : State) (_input : Input) : State :=
  let reducedShields := state.shields.map (fun s =>
    let players := state.bullets.foldl (fun (acc : ℚ) b =>
      if rectangleRectangleCollide s.rect b.rect && decide (b.shooter = BulletShooter.PLAYER)
      then acc + 1 else acc) 0
    let aliens := state.bullets.foldl (fun (acc : ℚ) b =>
      if rectangleRectangleCollide s.rect b.rect && decide (b.shooter = BulletShooter.ALIEN)
      then acc + 1 else acc) 0
    { s with
        pos := ⟨s.pos.x, s.pos.y + aliens * SHIELD_HEIGHT_REDUCTION⟩
      , height := s.height - (players + aliens) * SHIELD_HEIGHT_REDUCTION })
  let shields := reducedShields.filter (fun s => decide (s.height > 0))
  let bullets := state.bullets.filter (fun b =>
    !(state.shields.any (fun s => rectangleRectangleCollide s.rect b.rect)))
  { state with shields := shields, bullets := bullets }

-- noMoreAliens returns new level state if there are no more aliens.
def noMoreAliens (state : State) (_input : Input) : State :=
  let aliensExists := state.aliens.any (fun a =>
    decide (a.pos.y ≤ state.player.pos.y + state.player.height))
  if aliensExists then state
  else
    { state with
        level := state.level + 1
      , aliens := (INITIAL_STATE (jsonState state)).aliens
      , alienVel := (state.alienVel.abs).add ALIEN_VEL_INC }

-- ammoRegen increments ammo by AMMO_REGEN_AMOUNT but no more than AMMO_MAX.
def ammoRegen (state : State) (_input : Input) : State :=
  if state.ammoRegenTimer > 0 then
    { state with ammoRegenTimer := state.ammoRegenTimer - 1 }
  else
    { state with
        ammo := min AMMO_MAX (state.ammo + AMMO_REGEN_AMOUNT)
      , ammoRegenTimer := AMMO_REGEN_TIMER }

-- The ordered stage list reduced over by transition.
def stageList : List (State → Input → State) :=
  [playerShoot, alienShoot, movePlayer, moveAlien, moveBullet, removeBullet,
   playerAlienCollision, playerBulletCollision, alienBulletCollision,
   shieldBulletCollision, noMoreAliens, ammoRegen]

-- transition returns the next state given some state and input.
def transition (state : State) (input : Input) : State :=
  if state.gameRunning = false ∧ inputEnterKey input = true then
    { INITIAL_STATE (jsonState state) with gameRunning := true }
  else if state.gameRunning = false then state
  else stageList.foldl (fun s t => t s input) state

-- Reachability: states produced from the process-start world by the
-- transition function under arbitrary inputs.
inductive Reachable : State → Prop where
  | init : Reachable (INITIAL_STATE "")
  | step : ∀ {s : State} (i : Input), Reachable s → Reachable (transition s i)

-- The Batteries rational operations are irreducible by default, which blocks
-- kernel evaluation of concrete game states; restore default transparency.
attribute [local semireducible] Rat.add Rat.sub Rat.mul Rat.inv

-- Spec-side helper definitions -----------------------------------------

-- The state the pipeline has reached when playerAlienCollision runs:
-- the composition of the six stages preceding it, in pipeline order.
def preCollisionState (s : State) (i : Input) : State :=
  removeBullet (moveBullet (moveAlien (movePlayer (alienShoot (playerShoot s i) i) i) i) i) i

-- The fixed bullet velocity for each shooter kind.
def bulletVelFor : BulletShooter → Vec2
  | BulletShooter.PLAYER => ⟨0, -BULLET_SPEED⟩
  | BulletShooter.ALIEN => ⟨0, BULLET_SPEED⟩

-- Leftmost alien x clamped above by the canvas width (the fold's initial
-- accumulator in moveAlien).
def clampedLeftMost (s : State) : ℚ :=
  s.aliens.foldl (fun m a => min m a.pos.x) CANVAS_WIDTH

-- Rightmost alien x clamped below by 0 (the fold's initial accumulator).
def clampedRightMost (s : State) : ℚ :=
  s.aliens.foldl (fun m a => max m a.pos.x) 0

-- An alien overlaps some bullet that was not shot by an alien.
def alienIsHit (s : State) (a : Alien) : Prop :=
  ∃ b ∈ s.bullets, b.shooter ≠ BulletShooter.ALIEN ∧
    rectangleRectangleCollide a.rect b.rect = true

-- A bullet not shot by an alien overlaps some alien.
def bulletIsSpent (s : State) (b : Bullet) : Prop :=
  b.shooter ≠ BulletShooter.ALIEN ∧
    ∃ a ∈ s.aliens, rectangleRectangleCollide a.rect b.rect = true

-- Score awarded for one (alien, bullet) pairing.
def pairScore (a : Alien) (b : Bullet) : ℚ :=
  if b.shooter ≠ BulletShooter.ALIEN ∧ rectangleRectangleCollide a.rect b.rect = true then
    (if a.character = b.character then SCORE_ALIEN_KILL_CHAR_MATCH else SCORE_ALIEN_KILL)
  else 0

-- Pipeline plumbing lemmas ----------------------------------------------

theorem transition_running (s : State) (i : Input) (h : s.gameRunning = true) :
    transition s i =
      ammoRegen (noMoreAliens (shieldBulletCollision (alienBulletCollision
        (playerBulletCollision (playerAlienCollision (preCollisionState s i) i) i) i) i) i) i := by
  simp [transition, h, stageList, preCollisionState]

theorem transition_stopped_enter (s : State) (i : Input) (h : s.gameRunning = false)
    (he : inputEnterKey i = true) :
    transition s i = { INITIAL_STATE (jsonState s) with gameRunning := true } := by
  simp [transition, h, he]

theorem transition_stopped_other (s : State) (i : Input) (h : s.gameRunning = false)
    (he : inputEnterKey i = false) :
    transition s i = s := by
  simp [transition, h, he]

-- Per-stage field lemmas -------------------------------------------------

theorem playerShoot_shields (s : State) (i : Input) : (playerShoot s i).shields = s.shields := by
  cases h : i.keyboard <;> simp only [playerShoot, h] <;> (repeat' split) <;> rfl

theorem playerShoot_aliens (s : State) (i : Input) : (playerShoot s i).aliens = s.aliens := by
  cases h : i.keyboard <;> simp only [playerShoot, h] <;> (repeat' split) <;> rfl

theorem alienShoot_ammo (s : State) (i : Input) : (alienShoot s i).ammo = s.ammo := rfl

theorem alienShoot_shields (s : State) (i : Input) : (alienShoot s i).shields = s.shields := rfl

theorem movePlayer_ammo (s : State) (i : Input) : (movePlayer s i).ammo = s.ammo := by
  cases h : i.mouse <;> simp only [movePlayer, h]

theorem movePlayer_shields (s : State) (i : Input) : (movePlayer s i).shields = s.shields := by
  cases h : i.mouse <;> simp only [movePlayer, h]

theorem movePlayer_bullets (s : State) (i : Input) : (movePlayer s i).bullets = s.bullets := by
  cases h : i.mouse <;> simp only [movePlayer, h]

theorem moveAlien_ammo (s : State) (i : Input) : (moveAlien s i).ammo = s.ammo := rfl

theorem moveAlien_shields (s : State) (i : Input) : (moveAlien s i).shields = s.shields := rfl

theorem moveAlien_bullets (s : State) (i : Input) : (moveAlien s i).bullets = s.bullets := rfl

theorem moveBullet_ammo (s : State) (i : Input) : (moveBullet s i).ammo = s.ammo := rfl

theorem moveBullet_shields (s : State) (i : Input) : (moveBullet s i).shields = s.shields := rfl

theorem removeBullet_ammo (s : State) (i : Input) : (removeBullet s i).ammo = s.ammo := rfl

theorem removeBullet_shields (s : State) (i : Input) : (removeBullet s i).shields = s.shields := rfl

theorem pac_ammo (s : State) (i : Input) : (playerAlienCollision s i).ammo = s.ammo := by
  simp only [playerAlienCollision]; split <;> rfl

theorem pac_shields (s : State) (i : Input) :
    (playerAlienCollision s i).shields = s.shields := by
  simp only [playerAlienCollision]; split <;> rfl

theorem pac_bullets (s : State) (i : Input) :
    (playerAlienCollision s i).bullets = s.bullets := by
  simp only [playerAlienCollision]; split <;> rfl

theorem pac_score (s : State) (i : Input) : (playerAlienCollision s i).score = s.score := by
  simp only [playerAlienCollision]; split <;> rfl

theorem pbc_ammo (s : State) (i : Input) : (playerBulletCollision s i).ammo = s.ammo := by
  simp only [playerBulletCollision]; split <;> rfl

theorem pbc_shields (s : State) (i : Input) :
    (playerBulletCollision s i).shields = s.shields := by
  simp only [playerBulletCollision]; split <;> rfl

theorem pbc_bullets (s : State) (i : Input) :
    (playerBulletCollision s i).bullets = s.bullets := by
  simp only [playerBulletCollision]; split <;> rfl

theorem pbc_score (s : State) (i : Input) : (playerBulletCollision s i).score = s.score := by
  simp only [playerBulletCollision]; split <;> rfl

theorem pbc_cases (s : State) (i : Input) :
    (playerBulletCollision s i).gameRunning = s.gameRunning ∧
      (playerBulletCollision s i).message = s.message ∨
    (playerBulletCollision s i).gameRunning = false ∧
      (playerBulletCollision s i).message = MESSAGE_SCORE s.score := by
  simp only [playerBulletCollision]; split
  · left; exact ⟨rfl, rfl⟩
  · right; exact ⟨rfl, rfl⟩

theorem abc_ammo (s : State) (i : Input) : (alienBulletCollision s i).ammo = s.ammo := rfl

theorem abc_shields (s : State) (i : Input) :
    (alienBulletCollision s i).shields = s.shields := rfl

theorem abc_message (s : State) (i : Input) :
    (alienBulletCollision s i).message = s.message := rfl

theorem abc_gameRunning (s : State) (i : Input) :
    (alienBulletCollision s i).gameRunning = s.gameRunning := rfl

theorem sbc_ammo (s : State) (i : Input) : (shieldBulletCollision s i).ammo = s.ammo := rfl

theorem sbc_message (s : State) (i : Input) :
    (shieldBulletCollision s i).message = s.message := rfl

theorem sbc_gameRunning (s : State) (i : Input) :
    (shieldBulletCollision s i).gameRunning = s.gameRunning := rfl

theorem nma_ammo (s : State) (i : Input) : (noMoreAliens s i).ammo = s.ammo := by
  simp only [noMoreAliens]; split <;> rfl

theorem nma_shields (s : State) (i : Input) : (noMoreAliens s i).shields = s.shields := by
  simp only [noMoreAliens]; split <;> rfl

theorem nma_bullets (s : State) (i : Input) : (noMoreAliens s i).bullets = s.bullets := by
  simp only [noMoreAliens]; split <;> rfl

theorem nma_message (s : State) (i : Input) : (noMoreAliens s i).message = s.message := by
  simp only [noMoreAliens]; split <;> rfl

theorem nma_gameRunning (s : State) (i : Input) :
    (noMoreAliens s i).gameRunning = s.gameRunning := by
  simp only [noMoreAliens]; split <;> rfl

theorem ar_shields (s : State) (i : Input) : (ammoRegen s i).shields = s.shields := by
  simp only [ammoRegen]; split <;> rfl

theorem ar_bullets (s : State) (i : Input) : (ammoRegen s i).bullets = s.bullets := by
  simp only [ammoRegen]; split <;> rfl

theorem ar_message (s : State) (i : Input) : (ammoRegen s i).message = s.message := by
  simp only [ammoRegen]; split <;> rfl

theorem ar_gameRunning (s : State) (i : Input) :
    (ammoRegen s i).gameRunning = s.gameRunning := by
  simp only [ammoRegen]; split <;> rfl

-- Ammo invariant (C6) ----------------------------------------------------

-- The inductive invariant: ammo is an integer between 0 and 20.  (Integrality
-- is needed: the shoot guard `ammo <= 0` only keeps `ammo - 1` nonnegative
-- for integral ammo, and all reachable ammo values are integral.)
def ammoIntBounded (s : State) : Prop :=
  ∃ n : ℤ, s.ammo = (n : ℚ) ∧ 0 ≤ n ∧ n ≤ 20

theorem ammoIntBounded_of_eq {s t : State} (h : t.ammo = s.ammo)
    (hs : ammoIntBounded s) : ammoIntBounded t := by
  obtain ⟨n, hn, h0, h20⟩ := hs
  exact ⟨n, h.trans hn, h0, h20⟩

theorem ammoIntBounded_initial (seed : String) : ammoIntBounded (INITIAL_STATE seed) := by
  refine ⟨20, ?_, by norm_num, by norm_num⟩
  show AMMO_MAX = ((20 : ℤ) : ℚ)
  norm_num [AMMO_MAX]

theorem ammoIntBounded_playerShoot (s : State) (i : Input) (h : ammoIntBounded s) :
    ammoIntBounded (playerShoot s i) := by
  obtain ⟨n, hn, h0, h20⟩ := h
  cases hk : i.keyboard with
  | none => exact ⟨n, by simp only [playerShoot, hk]; exact hn, h0, h20⟩
  | some kb =>
    simp only [playerShoot, hk]
    split
    · exact ⟨n, hn, h0, h20⟩
    split
    · exact ⟨n, hn, h0, h20⟩
    rename_i hammo
    have hpos : (0 : ℚ) < (n : ℚ) := by rw [← hn]; exact lt_of_not_le hammo
    have hposZ : 0 < n := by exact_mod_cast hpos
    refine ⟨n - 1, ?_, by omega, by omega⟩
    show s.ammo - 1 = ((n - 1 : ℤ) : ℚ)
    rw [hn]; push_cast; ring

theorem ammoIntBounded_ammoRegen (s : State) (i : Input) (h : ammoIntBounded s) :
    ammoIntBounded (ammoRegen s i) := by
  obtain ⟨n, hn, h0, h20⟩ := h
  simp only [ammoRegen]
  split
  · exact ⟨n, hn, h0, h20⟩
  refine ⟨min 20 (n + 4), ?_, ?_, min_le_left _ _⟩
  · show min AMMO_MAX (s.ammo + AMMO_REGEN_AMOUNT) = ((min 20 (n + 4) : ℤ) : ℚ)
    rw [hn]
    push_cast
    norm_num [AMMO_MAX, AMMO_REGEN_AMOUNT]
  · exact le_min (by norm_num) (by omega)

theorem ammoIntBounded_transition (s : State) (i : Input) (h : ammoIntBounded s) :
    ammoIntBounded (transition s i) := by
  by_cases hr : s.gameRunning = true
  · have hpre : ammoIntBounded (preCollisionState s i) := by
      unfold preCollisionState
      exact ammoIntBounded_of_eq (removeBullet_ammo _ i)
        (ammoIntBounded_of_eq (moveBullet_ammo _ i)
          (ammoIntBounded_of_eq (moveAlien_ammo _ i)
            (ammoIntBounded_of_eq (movePlayer_ammo _ i)
              (ammoIntBounded_of_eq (alienShoot_ammo _ i)
                (ammoIntBounded_playerShoot s i h)))))
    rw [transition_running s i hr]
    exact ammoIntBounded_ammoRegen _ i
      (ammoIntBounded_of_eq (nma_ammo _ i)
        (ammoIntBounded_of_eq (sbc_ammo _ i)
          (ammoIntBounded_of_eq (abc_ammo _ i)
            (ammoIntBounded_of_eq (pbc_ammo _ i)
              (ammoIntBounded_of_eq (pac_ammo _ i) hpre)))))
  · have hf : s.gameRunning = false := by simpa using hr
    cases he : inputEnterKey i
    · rw [transition_stopped_other s i hf he]; exact h
    · rw [transition_stopped_enter s i hf he]
      exact ammoIntBounded_of_eq rfl (ammoIntBounded_initial (jsonState s))

theorem ammoIntBounded_reachable (s : State) (h : Reachable s) : ammoIntBounded s := by
  induction h with
  | init => exact ammoIntBounded_initial ""
  | step i hr ih => exact ammoIntBounded_transition _ i ih

-- Shield invariant (C7) --------------------------------------------------

def shieldsPos (s : State) : Prop := ∀ sh ∈ s.shields, 0 < sh.height

theorem shieldsPos_of_eq {s t : State} (h : t.shields = s.shields)
    (hs : shieldsPos s) : shieldsPos t :=
  fun sh hsh => hs sh (h ▸ hsh)

theorem shieldsPos_initial (seed : String) : shieldsPos (INITIAL_STATE seed) := by
  intro sh hsh
  simp only [INITIAL_STATE, List.mem_map] at hsh
  obtain ⟨idx, -, rfl⟩ := hsh
  show (0 : ℚ) < SHIELD_HEIGHT
  norm_num [SHIELD_HEIGHT]

theorem shieldsPos_sbc (s : State) (i : Input) :
    shieldsPos (shieldBulletCollision s i) := by
  intro sh hsh
  simp only [shieldBulletCollision, List.mem_filter] at hsh
  exact of_decide_eq_true hsh.2

theorem shieldsPos_transition (s : State) (i : Input) (h : shieldsPos s) :
    shieldsPos (transition s i) := by
  by_cases hr : s.gameRunning = true
  · rw [transition_running s i hr]
    exact shieldsPos_of_eq (ar_shields _ i)
      (shieldsPos_of_eq (nma_shields _ i) (shieldsPos_sbc _ i))
  · have hf : s.gameRunning = false := by simpa using hr
    cases he : inputEnterKey i
    · rw [transition_stopped_other s i hf he]; exact h
    · rw [transition_stopped_enter s i hf he]
      exact shieldsPos_of_eq rfl (shieldsPos_initial (jsonState s))

theorem shieldsPos_reachable (s : State) (h : Reachable s) : shieldsPos s := by
  induction h with
  | init => exact shieldsPos_initial ""
  | step i hr ih => exact shieldsPos_transition _ i ih

-- Bullet-velocity invariant (C10) ---------------------------------------

def bulletsTyped (s : State) : Prop := ∀ b ∈ s.bullets, b.vel = bulletVelFor b.shooter

theorem bulletsTyped_of_eq {s t : State} (h : t.bullets = s.bullets)
    (hs : bulletsTyped s) : bulletsTyped t :=
  fun b hb => hs b (h ▸ hb)

theorem bulletsTyped_of_sublist {s t : State}
    (h : ∀ b, b ∈ t.bullets → b ∈ s.bullets) (hs : bulletsTyped s) : bulletsTyped t :=
  fun b hb => hs b (h b hb)

theorem bulletsTyped_initial (seed : String) : bulletsTyped (INITIAL_STATE seed) := by
  intro b hb
  simp only [INITIAL_STATE] at hb
  cases hb

theorem bulletsTyped_playerShoot (s : State) (i : Input) (h : bulletsTyped s) :
    bulletsTyped (playerShoot s i) := by
  intro b hb
  cases hk : i.keyboard with
  | none => exact h b (by simpa only [playerShoot, hk] using hb)
  | some kb =>
    simp only [playerShoot, hk] at hb
    split at hb
    · exact h b hb
    split at hb
    · exact h b hb
    simp only [List.mem_append, List.mem_singleton] at hb
    rcases hb with hb | rfl
    · exact h b hb
    · rfl

theorem bulletsTyped_alienShoot (s : State) (i : Input) (h : bulletsTyped s) :
    bulletsTyped (alienShoot s i) := by
  intro b hb
  simp only [alienShoot, List.mem_append, List.mem_map] at hb
  rcases hb with hb | ⟨alien, -, rfl⟩
  · exact h b hb
  · rfl

theorem bulletsTyped_moveBullet (s : State) (i : Input) (h : bulletsTyped s) :
    bulletsTyped (moveBullet s i) := by
  intro b hb
  simp only [moveBullet, List.mem_map] at hb
  obtain ⟨b', hb', rfl⟩ := hb
  exact h b' hb'

theorem bulletsTyped_removeBullet (s : State) (i : Input) (h : bulletsTyped s) :
    bulletsTyped (removeBullet s i) :=
  bulletsTyped_of_sublist
    (fun b hb => (List.mem_filter.mp (by simpa only [removeBullet] using hb)).1) h

theorem bulletsTyped_abc (s : State) (i : Input) (h : bulletsTyped s) :
    bulletsTyped (alienBulletCollision s i) :=
  bulletsTyped_of_sublist
    (fun b hb => (List.mem_filter.mp (by simpa only [alienBulletCollision] using hb)).1) h

theorem bulletsTyped_sbc (s : State) (i : Input) (h : bulletsTyped s) :
    bulletsTyped (shieldBulletCollision s i) :=
  bulletsTyped_of_sublist
    (fun b hb => (List.mem_filter.mp (by simpa only [shieldBulletCollision] using hb)).1) h

theorem bulletsTyped_transition (s : State) (i : Input) (h : bulletsTyped s) :
    bulletsTyped (transition s i) := by
  by_cases hr : s.gameRunning = true
  · have hpre : bulletsTyped (preCollisionState s i) := by
      unfold preCollisionState
      exact bulletsTyped_removeBullet _ i
        (bulletsTyped_moveBullet _ i
          (bulletsTyped_of_eq (moveAlien_bullets _ i)
            (bulletsTyped_of_eq (movePlayer_bullets _ i)
              (bulletsTyped_alienShoot _ i
                (bulletsTyped_playerShoot s i h)))))
    rw [transition_running s i hr]
    exact bulletsTyped_of_eq (ar_bullets _ i)
      (bulletsTyped_of_eq (nma_bullets _ i)
        (bulletsTyped_sbc _ i
          (bulletsTyped_abc _ i
            (bulletsTyped_of_eq (pbc_bullets _ i)
              (bulletsTyped_of_eq (pac_bullets _ i) hpre)))))
  · have hf : s.gameRunning = false := by simpa using hr
    cases he : inputEnterKey i
    · rw [transition_stopped_other s i hf he]; exact h
    · rw [transition_stopped_enter s i hf he]
      exact bulletsTyped_of_eq rfl (bulletsTyped_initial (jsonState s))

theorem bulletsTyped_reachable (s : State) (h : Reachable s) : bulletsTyped s := by
  induction h with
  | init => exact bulletsTyped_initial ""
  | step i hr ih => exact bulletsTyped_transition _ i ih

-- Concrete states and inputs used by counterexamples and witnesses -------

def emptyInput : Input := {}

def enterInput : Input := { keyboard := some { key := "Enter" } }

def lowercaseAInput : Input := { keyboard := some { key := "a" } }

def uppercaseBInput : Input := { keyboard := some { key := "B" } }

def testPlayer : Player := { pos := ⟨270, 540⟩, width := 48, height := 32 }

-- A running state whose single alien is strictly below the player's bottom
-- edge (580 > 540 + 32).
def c1state : State :=
  { gameRunning := true, level := 1, player := testPlayer
  , aliens := [{ pos := ⟨10, 580⟩, width := 24, height := 20, character := "A" }]
  , alienVel := ⟨1, 0⟩, bullets := [], shields := []
  , score := 0, ammo := 20, ammoRegenTimer := 50, message := "mid-game" }

-- A plain running state with ammo available.
def c2state : State :=
  { gameRunning := true, level := 1, player := testPlayer
  , aliens := [{ pos := ⟨10, 10⟩, width := 24, height := 20, character := "A" }]
  , alienVel := ⟨1, 0⟩, bullets := [], shields := []
  , score := 0, ammo := 20, ammoRegenTimer := 50, message := "mid-game" }

-- A running state in which, after the movement stages, the player overlaps
-- one alien while a player-shot bullet overlaps (and kills) another.
def c3state : State :=
  { gameRunning := true, level := 1, player := testPlayer
  , aliens := [{ pos := ⟨280, 530⟩, width := 24, height := 20, character := "B" },
               { pos := ⟨100, 100⟩, width := 24, height := 20, character := "A" }]
  , alienVel := ⟨1, 0⟩
  , bullets := [{ shooter := BulletShooter.PLAYER, pos := ⟨105, 110⟩,
                  vel := ⟨0, -3⟩, width := 14, height := 14, character := "A" }]
  , shields := []
  , score := 0, ammo := 20, ammoRegenTimer := 50, message := "mid-game" }

-- A running state with one alien beyond the right canvas edge and a large
-- leftward velocity.
def c4state : State :=
  { gameRunning := true, level := 1, player := testPlayer
  , aliens := [{ pos := ⟨700, 100⟩, width := 24, height := 20, character := "A" }]
  , alienVel := ⟨-650, 0⟩, bullets := [], shields := []
  , score := 0, ammo := 20, ammoRegenTimer := 50, message := "mid-game" }

-- A running state about to bounce off the right wall (575 + 24 + 2 > 600).
def c4wstate : State :=
  { gameRunning := true, level := 1, player := testPlayer
  , aliens := [{ pos := ⟨575, 100⟩, width := 24, height := 20, character := "A" }]
  , alienVel := ⟨2, 0⟩, bullets := [], shields := []
  , score := 0, ammo := 20, ammoRegenTimer := 50, message := "mid-game" }

-- A running state whose alien collection has been fully cleared.
def clearedState : State :=
  { gameRunning := true, level := 3, player := testPlayer
  , aliens := [], alienVel := ⟨2, 0⟩, bullets := [], shields := []
  , score := 500, ammo := 7, ammoRegenTimer := 3, message := "mid-game" }

-- C6 ---------------------------------------------------------------------

/-- C6: in every state reachable from the initial world by transition steps
with arbitrary inputs, the ammo field satisfies 0 ≤ ammo ≤ AMMO_MAX:
playerShoot never drives ammo below 0 and ammoRegen never raises it above
the maximum. -/
theorem C6_ammo_bounds (s : State) (h : Reachable s) :
    0 ≤ s.ammo ∧ s.ammo ≤ AMMO_MAX := by
  obtain ⟨n, hn, h0, h20⟩ := ammoIntBounded_reachable s h
  rw [hn]
  constructor
  · exact_mod_cast h0
  · show ((n : ℚ)) ≤ AMMO_MAX
    have h20q : ((n : ℚ)) ≤ ((20 : ℤ) : ℚ) := by exact_mod_cast h20
    simpa [AMMO_MAX] using h20q

/-- Witness for C6 at the process-start world. -/
theorem C6_ammo_bounds_witness :
    Reachable (INITIAL_STATE "") ∧
      (0 ≤ (INITIAL_STATE "").ammo ∧ (INITIAL_STATE "").ammo ≤ AMMO_MAX) :=
  ⟨Reachable.init, C6_ammo_bounds _ Reachable.init⟩

-- C7 ---------------------------------------------------------------------

/-- C7: every shield present in the shield collection of a reachable state has
height > 0; shields whose height drops to zero or below are filtered out
within the same tick by shieldBulletCollision. -/
theorem C7_shield_height (s : State) (h : Reachable s) :
    s.shields.all (fun sh => decide (sh.height > 0)) = true := by
  rw [List.all_eq_true]
  intro sh hsh
  exact decide_eq_true (shieldsPos_reachable s h sh hsh)

/-- Witness for C7 at the process-start world (which has four shields). -/
theorem C7_shield_height_witness :
    Reachable (INITIAL_STATE "") ∧
      (INITIAL_STATE "").shields.all (fun sh => decide (sh.height > 0)) = true :=
  ⟨Reachable.init, C7_shield_height _ Reachable.init⟩

-- C10 --------------------------------------------------------------------

/-- C10: in every reachable state, every bullet's velocity is purely vertical
with fixed magnitude: (0, -BULLET_SPEED) when its shooter is PLAYER and
(0, BULLET_SPEED) when its shooter is ALIEN, so bullets travel in straight
vertical lines for their whole lifetime. -/
theorem C10_bullet_velocity (s : State) (h : Reachable s) :
    s.bullets.all (fun b => decide (b.vel = bulletVelFor b.shooter)) = true := by
  rw [List.all_eq_true]
  intro b hb
  exact decide_eq_true (bulletsTyped_reachable s h b hb)

/-- Witness for C10 at the process-start world. -/
theorem C10_bullet_velocity_witness :
    Reachable (INITIAL_STATE "") ∧
      (INITIAL_STATE "").bullets.all (fun b => decide (b.vel = bulletVelFor b.shooter)) = true :=
  ⟨Reachable.init, C10_bullet_velocity _ Reachable.init⟩

-- C8 ---------------------------------------------------------------------

/-- C8: with the game stopped, an input whose keyboard key equals the start key
"Enter" makes transition return the freshly initialized world seeded from the
serialization of the current (pre-reset) state with gameRunning set to true;
any other input (including no keyboard at all) leaves the state unchanged. -/
theorem C8_transition_stopped (s : State) (i : Input) (h : s.gameRunning = false) :
    (∀ kb : Keyboard, i.keyboard = some kb → kb.key = "Enter" →
        transition s i = { INITIAL_STATE (jsonState s) with gameRunning := true }) ∧
    ((∀ kb : Keyboard, i.keyboard = some kb → kb.key ≠ "Enter") →
        transition s i = s) := by
  constructor
  · intro kb hkb hk
    exact transition_stopped_enter s i h (by simp [inputEnterKey, hkb, hk])
  · intro hno
    refine transition_stopped_other s i h ?_
    cases hk : i.keyboard with
    | none => simp [inputEnterKey, hk]
    | some kb =>
      simp only [inputEnterKey, hk, beq_eq_false_iff_ne, ne_eq]
      exact hno kb hk

/-- Witness for C8: pressing Enter at the process-start world restarts it. -/
theorem C8_transition_stopped_witness :
    (INITIAL_STATE "").gameRunning = false ∧
      transition (INITIAL_STATE "") enterInput =
        { INITIAL_STATE (jsonState (INITIAL_STATE "")) with gameRunning := true } :=
  ⟨rfl, (C8_transition_stopped _ enterInput rfl).1 { key := "Enter" } rfl rfl⟩

-- C9 ---------------------------------------------------------------------

theorem INITIAL_STATE_aliens_length (seed : String) :
    ((INITIAL_STATE seed).aliens).length = 24 := by
  show ((cartesian (range ALIEN_ROWS) (range ALIEN_COLS)).map _).length = 24
  rw [List.length_map]
  rfl

/-- C9: from a running state whose alien collection is empty, noMoreAliens
increments the level by exactly 1, replaces the aliens with a freshly
generated full alien grid seeded from the serialization of the current state
(only the alien sub-result of the initializer is reused), and replaces the
alien velocity with the componentwise absolute value of the current velocity
plus the fixed increment, so the velocity magnitude strictly increases. -/
theorem C9_level_up (s : State) (i : Input) (hrun : s.gameRunning = true)
    (h : s.aliens = []) :
    noMoreAliens s i = { s with
        level := s.level + 1
      , aliens := (INITIAL_STATE (jsonState s)).aliens
      , alienVel := (s.alienVel.abs).add ALIEN_VEL_INC } ∧
    (noMoreAliens s i).aliens.length = ALIEN_ROWS * ALIEN_COLS ∧
    (noMoreAliens s i).alienVel.x ^ 2 + (noMoreAliens s i).alienVel.y ^ 2 >
      s.alienVel.x ^ 2 + s.alienVel.y ^ 2 := by
  have hmain : noMoreAliens s i = { s with
      level := s.level + 1
    , aliens := (INITIAL_STATE (jsonState s)).aliens
    , alienVel := (s.alienVel.abs).add ALIEN_VEL_INC } := by
    simp [noMoreAliens, h]
  refine ⟨hmain, ?_, ?_⟩
  · rw [hmain]
    show ((INITIAL_STATE (jsonState s)).aliens).length = ALIEN_ROWS * ALIEN_COLS
    rw [INITIAL_STATE_aliens_length]
    rfl
  · rw [hmain]
    show ((s.alienVel.abs).add ALIEN_VEL_INC).x ^ 2 +
        ((s.alienVel.abs).add ALIEN_VEL_INC).y ^ 2 > _
    simp only [Vec2.abs, Vec2.add, ALIEN_VEL_INC]
    nlinarith [abs_nonneg s.alienVel.x, abs_nonneg s.alienVel.y,
      sq_abs s.alienVel.x, sq_abs s.alienVel.y]

/-- Witness for C9 at a concrete cleared running state. -/
theorem C9_level_up_witness :
    clearedState.gameRunning = true ∧ clearedState.aliens = [] ∧
      (noMoreAliens clearedState emptyInput).level = clearedState.level + 1 ∧
      (noMoreAliens clearedState emptyInput).aliens.length = ALIEN_ROWS * ALIEN_COLS :=
  ⟨rfl, rfl,
    by rw [(C9_level_up clearedState emptyInput rfl rfl).1],
    (C9_level_up clearedState emptyInput rfl rfl).2.1⟩

-- C1 ---------------------------------------------------------------------

/-- C1 counterexample: a running state with one remaining alien strictly below
the player's bottom edge (y = 580 > 540 + 32).  The claim says noMoreAliens is
a no-op here; the code instead treats the descended alien as gone, advances
the level and changes the alien velocity. -/
theorem C1_noop_counterexample :
    c1state.gameRunning = true ∧
    c1state.aliens ≠ [] ∧
    c1state.aliens.any (fun a =>
      decide (a.pos.y ≤ c1state.player.pos.y + c1state.player.height)) = false ∧
    (noMoreAliens c1state emptyInput).level ≠ c1state.level ∧
    (noMoreAliens c1state emptyInput).alienVel ≠ c1state.alienVel :=
  ⟨rfl, by decide, by decide, by decide, by decide⟩

/-- C1 (amended): in a running state in which some aliens remain but every
remaining alien's vertical position is past the player's bottom edge (so the
code's "aliens exist" test, which checks for an alien with y ≤ player bottom,
fails), noMoreAliens is NOT a no-op: it advances the level by 1, regenerates
the alien grid seeded from the serialization of the current state, and
replaces the alien velocity by its componentwise absolute value plus the
fixed increment — exactly as it does for a cleared collection.  The stage is a
no-op only when some alien's y is ≤ the player's bottom edge. -/
theorem C1_below_levels_up (s : State) (i : Input) (hrun : s.gameRunning = true)
    (hne : s.aliens ≠ [])
    (hbelow : s.aliens.any (fun a =>
        decide (a.pos.y ≤ s.player.pos.y + s.player.height)) = false) :
    noMoreAliens s i = { s with
        level := s.level + 1
      , aliens := (INITIAL_STATE (jsonState s)).aliens
      , alienVel := (s.alienVel.abs).add ALIEN_VEL_INC } := by
  simp [noMoreAliens, hbelow]

/-- Witness for the amended C1 at the concrete descended-alien state. -/
theorem C1_below_levels_up_witness :
    c1state.gameRunning = true ∧ c1state.aliens ≠ [] ∧
    c1state.aliens.any (fun a =>
      decide (a.pos.y ≤ c1state.player.pos.y + c1state.player.height)) = false ∧
    noMoreAliens c1state emptyInput = { c1state with
        level := c1state.level + 1
      , aliens := (INITIAL_STATE (jsonState c1state)).aliens
      , alienVel := (c1state.alienVel.abs).add ALIEN_VEL_INC } :=
  ⟨rfl, by decide, by decide,
    C1_below_levels_up c1state emptyInput rfl (by decide) (by decide)⟩

-- C2 ---------------------------------------------------------------------

-- The bullet playerShoot spawns: horizontally centred on the player (the
-- bullet's centre x equals the player's centre x), at the player's y, moving
-- straight up at the fixed speed, tagged with the given character.
def shotBullet (s : State) (c : String) : Bullet :=
  { shooter := BulletShooter.PLAYER
  , pos := ⟨s.player.pos.x + s.player.width / 2 - BULLET_WIDTH / 2, s.player.pos.y⟩
  , vel := ⟨0, -BULLET_SPEED⟩
  , width := BULLET_WIDTH
  , height := BULLET_HEIGHT
  , character := c }

/-- C2 counterexample: with ammo available, the lowercase key "a" — which is
not an uppercase ASCII letter, so the claim says playerShoot must be a no-op —
still shoots: the code uppercases the key before testing membership in the
alphabet, so a bullet is appended and the state changes. -/
theorem C2_noop_counterexample :
    lowercaseAInput.keyboard = some { key := "a" } ∧
    jsIncludes ABC "a" = false ∧
    c2state.ammo > 0 ∧
    (playerShoot c2state lowercaseAInput).bullets.length =
      c2state.bullets.length + 1 ∧
    playerShoot c2state lowercaseAInput ≠ c2state :=
  ⟨rfl, by decide, by decide, by decide, by decide⟩

/-- C2 (amended): playerShoot is a no-op unless a keyboard sample is present,
the UPPERCASED key is a contiguous substring of the alphabet
"ABCDEFGHIJKLMNOPQRSTUVWXYZ" (so single ASCII letters of either case qualify,
as do the empty string and longer consecutive alphabet runs — the code uses
String.includes), and ammo > 0.  When all three conditions hold it appends
exactly one bullet at the player's horizontal center moving upward at the
fixed speed, tagged with the uppercased key, decrements ammo by 1, and
decrements score by the fixed shoot penalty (score may go negative), leaving
all other state fields unchanged. -/
theorem C2_playerShoot_spec (s : State) (i : Input) :
    (∀ kb : Keyboard, i.keyboard = some kb →
        jsIncludes ABC (jsToUpper kb.key) = true → ¬ s.ammo ≤ 0 →
        playerShoot s i = { s with
          bullets := s.bullets ++ [shotBullet s (jsToUpper kb.key)],
          ammo := s.ammo - 1,
          score := s.score - SCORE_SHOOT_DECREMENT }) ∧
    (i.keyboard = none → playerShoot s i = s) ∧
    (∀ kb : Keyboard, i.keyboard = some kb →
        jsIncludes ABC (jsToUpper kb.key) = false ∨ s.ammo ≤ 0 →
        playerShoot s i = s) := by
  refine ⟨?_, ?_, ?_⟩
  · intro kb hkb hinc hammo
    simp only [playerShoot, hkb]
    rw [if_neg (by simp [hinc]), if_neg hammo]
    rfl
  · intro hk
    simp only [playerShoot, hk]
  · intro kb hkb hno
    simp only [playerShoot, hkb]
    rcases hno with hinc | hammo
    · rw [if_pos hinc]
    · by_cases hI : jsIncludes ABC (jsToUpper kb.key) = false
      · rw [if_pos hI]
      · rw [if_neg hI, if_pos hammo]

/-- Witness for the amended C2: pressing "B" with full ammo spawns the bullet
and pays the penalties. -/
theorem C2_playerShoot_spec_witness :
    uppercaseBInput.keyboard = some { key := "B" } ∧
    jsIncludes ABC (jsToUpper "B") = true ∧
    ¬ c2state.ammo ≤ 0 ∧
    playerShoot c2state uppercaseBInput = { c2state with
      bullets := c2state.bullets ++ [shotBullet c2state (jsToUpper "B")],
      ammo := c2state.ammo - 1,
      score := c2state.score - SCORE_SHOOT_DECREMENT } :=
  ⟨rfl, by decide, by decide,
    (C2_playerShoot_spec c2state uppercaseBInput).1 { key := "B" } rfl
      (by decide) (by decide)⟩

-- C4 ---------------------------------------------------------------------

theorem foldl_minmax (l : List Alien) (c d : ℚ) :
    l.foldl (fun (p : ℚ × ℚ) a => (min p.1 a.pos.x, max p.2 a.pos.x)) (c, d) =
      (l.foldl (fun m a => min m a.pos.x) c, l.foldl (fun m a => max m a.pos.x) d) := by
  induction l generalizing c d with
  | nil => rfl
  | cons hd tl ih => simpa using ih (min c hd.pos.x) (max d hd.pos.x)

/-- C4 counterexample: one alien at x = 700 (beyond the canvas edge) moving
with velocity (-650, 0).  The aliens' true leftmost horizontal position is
700, and translating by the velocity keeps both edges inside the walls
(700 - 650 = 50 ≥ 0 and 700 + 24 - 650 = 74 ≤ 600), so the claim predicts a
plain translation with the velocity unchanged; the code's fold starts its
accumulator at (CANVAS_WIDTH, 0), computes leftmost 600, wrongly detects a
left-wall hit, reflects the velocity and snaps-and-drops the alien instead. -/
theorem C4_bounce_counterexample :
    c4state.aliens.map (fun a => a.pos.x) = [700] ∧
    ¬ ((700 : ℚ) + c4state.alienVel.x < 0) ∧
    ¬ ((700 : ℚ) + ALIEN_WIDTH + c4state.alienVel.x > CANVAS_WIDTH) ∧
    (moveAlien c4state emptyInput).alienVel ≠ c4state.alienVel ∧
    (moveAlien c4state emptyInput).aliens ≠ c4state.aliens.map (fun a =>
      { a with pos := ⟨a.pos.x + c4state.alienVel.x, a.pos.y + c4state.alienVel.y⟩ }) :=
  ⟨by decide, by decide, by decide, by decide, by decide⟩

/-- C4 (amended): for every state with a non-empty alien collection, moveAlien
computes the leftmost alien horizontal position CLAMPED ABOVE by the canvas
width and the rightmost CLAMPED BELOW by 0 (the fold's initial accumulator
(CANVAS_WIDTH, 0); for aliens inside the canvas these clamps are inactive and
the values are the true leftmost/rightmost).  If translating by the shared
velocity would push the clamped leftmost past the left boundary, or the
clamped rightmost plus the alien width past the right boundary, it negates the
horizontal velocity component, shifts every alien's x by the same offset so
the clamped offending edge sits exactly on that boundary, and adds the fixed
drop amount to every alien's y instead of the velocity's vertical component;
otherwise it translates every alien by the current velocity and leaves the
velocity unchanged. -/
theorem C4_moveAlien_spec (s : State) (i : Input) (hne : s.aliens ≠ []) :
    ((clampedLeftMost s + s.alienVel.x < 0 ∨
        clampedRightMost s + ALIEN_WIDTH + s.alienVel.x > CANVAS_WIDTH) →
      moveAlien s i = { s with
        alienVel := ⟨-s.alienVel.x, s.alienVel.y⟩,
        aliens := s.aliens.map (fun a => { a with pos :=
          ⟨a.pos.x + (if clampedLeftMost s + s.alienVel.x < 0
              then -clampedLeftMost s
              else CANVAS_WIDTH - ALIEN_WIDTH - clampedRightMost s),
           a.pos.y + ALIEN_DROP_AMOUNT⟩ }) }) ∧
    (¬ (clampedLeftMost s + s.alienVel.x < 0 ∨
        clampedRightMost s + ALIEN_WIDTH + s.alienVel.x > CANVAS_WIDTH) →
      moveAlien s i = { s with aliens := s.aliens.map (fun a =>
        { a with pos := ⟨a.pos.x + s.alienVel.x, a.pos.y + s.alienVel.y⟩ }) }) := by
  have hfold := foldl_minmax s.aliens CANVAS_WIDTH 0
  constructor
  · intro hHit
    by_cases hL : clampedLeftMost s + s.alienVel.x < 0
    · simp only [moveAlien, hfold]
      simp only [clampedLeftMost, clampedRightMost] at hL ⊢
      simp [hL, zero_sub, neg_one_mul]
    · have hR : clampedRightMost s + ALIEN_WIDTH + s.alienVel.x > CANVAS_WIDTH :=
        hHit.resolve_left hL
      simp only [moveAlien, hfold]
      simp only [clampedLeftMost, clampedRightMost] at hL hR ⊢
      simp [hL, hR, neg_one_mul]
  · intro hNo
    push_neg at hNo
    obtain ⟨hL, hR⟩ := hNo
    have hL2 : ¬ clampedLeftMost s + s.alienVel.x < 0 := not_lt.mpr hL
    have hR2 : ¬ clampedRightMost s + ALIEN_WIDTH + s.alienVel.x > CANVAS_WIDTH :=
      not_lt.mpr hR
    simp only [moveAlien, hfold]
    simp only [clampedLeftMost, clampedRightMost] at hL2 hR2 ⊢
    simp [hL2, hR2]

/-- Witness for the amended C4: an alien at x = 575 moving right at speed 2
bounces off the right wall (575 + 24 + 2 > 600). -/
theorem C4_moveAlien_spec_witness :
    c4wstate.aliens ≠ [] ∧
    (clampedLeftMost c4wstate + c4wstate.alienVel.x < 0 ∨
      clampedRightMost c4wstate + ALIEN_WIDTH + c4wstate.alienVel.x > CANVAS_WIDTH) ∧
    moveAlien c4wstate emptyInput = { c4wstate with
      alienVel := ⟨-c4wstate.alienVel.x, c4wstate.alienVel.y⟩,
      aliens := c4wstate.aliens.map (fun a => { a with pos :=
        ⟨a.pos.x + (if clampedLeftMost c4wstate + c4wstate.alienVel.x < 0
            then -clampedLeftMost c4wstate
            else CANVAS_WIDTH - ALIEN_WIDTH - clampedRightMost c4wstate),
         a.pos.y + ALIEN_DROP_AMOUNT⟩ }) } :=
  ⟨by decide, Or.inr (by decide),
    (C4_moveAlien_spec c4wstate emptyInput (by decide)).1 (Or.inr (by decide))⟩

-- C5 ---------------------------------------------------------------------

theorem bool_eq_of_iff {a b : Bool} (h : a = true ↔ b = true) : a = b := by
  cases a <;> cases b <;> simp_all

instance (s : State) (a : Alien) : Decidable (alienIsHit s a) :=
  decidable_of_iff (∃ b ∈ s.bullets, b.shooter ≠ BulletShooter.ALIEN ∧
    rectangleRectangleCollide a.rect b.rect = true) Iff.rfl

instance (s : State) (b : Bullet) : Decidable (bulletIsSpent s b) :=
  decidable_of_iff (b.shooter ≠ BulletShooter.ALIEN ∧ ∃ a ∈ s.aliens,
    rectangleRectangleCollide a.rect b.rect = true) Iff.rfl

theorem foldl_add_sum {α : Type} (f : α → ℚ) (l : List α) : ∀ c : ℚ,
    l.foldl (fun acc x => acc + f x) c = c + (l.map f).sum := by
  induction l with
  | nil => intro c; simp
  | cons hd tl ih =>
    intro c
    simp only [List.foldl_cons, List.map_cons, List.sum_cons, ih]
    ring

/-- C5: alienBulletCollision removes exactly those aliens that overlap some
bullet not shot by an alien, removes exactly those bullets not shot by an
alien that overlap some alien, and adds to the score, for every
(alien, bullet) pair with a non-alien bullet and overlapping rectangles, the
matching-character bonus when the characters agree and the base kill amount
otherwise; every removal and scoring decision is evaluated against the same
pre-stage snapshot (a single bullet overlapping several aliens awards score
for each pairing), and all other state fields are unchanged. -/
theorem C5_alienBulletCollision_spec (s : State) (i : Input) :
    (alienBulletCollision s i).aliens =
      s.aliens.filter (fun a => decide (¬ alienIsHit s a)) ∧
    (alienBulletCollision s i).bullets =
      s.bullets.filter (fun b => decide (¬ bulletIsSpent s b)) ∧
    (alienBulletCollision s i).score =
      s.score + (s.aliens.map (fun a => (s.bullets.map (pairScore a)).sum)).sum ∧
    (alienBulletCollision s i).player = s.player ∧
    (alienBulletCollision s i).gameRunning = s.gameRunning ∧
    (alienBulletCollision s i).level = s.level ∧
    (alienBulletCollision s i).alienVel = s.alienVel ∧
    (alienBulletCollision s i).shields = s.shields ∧
    (alienBulletCollision s i).ammo = s.ammo ∧
    (alienBulletCollision s i).ammoRegenTimer = s.ammoRegenTimer ∧
    (alienBulletCollision s i).message = s.message := by
  refine ⟨?_, ?_, ?_, rfl, rfl, rfl, rfl, rfl, rfl, rfl, rfl⟩
  · show s.aliens.filter _ = s.aliens.filter _
    apply List.filter_congr
    intro a ha
    rw [decide_not]
    congr 1
    apply bool_eq_of_iff
    simp only [List.any_eq_true, Bool.and_eq_true, decide_eq_true_eq, alienIsHit]
  · show s.bullets.filter _ = s.bullets.filter _
    apply List.filter_congr
    intro b hb
    apply bool_eq_of_iff
    simp only [Bool.not_eq_true', List.any_eq_false, Bool.and_eq_true, Bool.not_eq_true,
      decide_eq_true_eq, decide_eq_false_iff_not, bulletIsSpent, not_and, not_exists]
    constructor
    · intro h hsh x hx
      exact h x hx hsh
    · intro h x hx hsh
      exact h hsh x hx
  · show s.aliens.foldl _ s.score = _
    have hinner : ∀ (a : Alien) (c : ℚ),
        s.bullets.foldl (fun scoreB b =>
          if decide (b.shooter ≠ BulletShooter.ALIEN) &&
              rectangleRectangleCollide a.rect b.rect
          then (if a.character = b.character then scoreB + SCORE_ALIEN_KILL_CHAR_MATCH
                else scoreB + SCORE_ALIEN_KILL)
          else scoreB) c
          = c + (s.bullets.map (pairScore a)).sum := by
      intro a c
      have hfn : (fun (scoreB : ℚ) b =>
          if decide (b.shooter ≠ BulletShooter.ALIEN) &&
              rectangleRectangleCollide a.rect b.rect
          then (if a.character = b.character then scoreB + SCORE_ALIEN_KILL_CHAR_MATCH
                else scoreB + SCORE_ALIEN_KILL)
          else scoreB)
          = (fun (scoreB : ℚ) b => scoreB + pairScore a b) := by
        funext scoreB b
        simp only [pairScore]
        by_cases h1 : (decide (b.shooter ≠ BulletShooter.ALIEN) &&
            rectangleRectangleCollide a.rect b.rect) = true
        · rw [if_pos h1]
          have h2 : b.shooter ≠ BulletShooter.ALIEN ∧
              rectangleRectangleCollide a.rect b.rect = true := by
            simpa [Bool.and_eq_true, decide_eq_true_eq] using h1
          rw [if_pos h2]
          split_ifs <;> ring
        · rw [if_neg h1]
          have h2 : ¬ (b.shooter ≠ BulletShooter.ALIEN ∧
              rectangleRectangleCollide a.rect b.rect = true) := by
            simpa [Bool.and_eq_true, decide_eq_true_eq] using h1
          rw [if_neg h2, add_zero]
      rw [hfn]
      exact foldl_add_sum (pairScore a) s.bullets c
    have houter : (fun (scoreA : ℚ) a =>
        s.bullets.foldl (fun scoreB b =>
          if decide (b.shooter ≠ BulletShooter.ALIEN) &&
              rectangleRectangleCollide a.rect b.rect
          then (if a.character = b.character then scoreB + SCORE_ALIEN_KILL_CHAR_MATCH
                else scoreB + SCORE_ALIEN_KILL)
          else scoreB) scoreA)
        = (fun (scoreA : ℚ) a => scoreA + (s.bullets.map (pairScore a)).sum) := by
      funext scoreA a
      exact hinner a scoreA
    rw [houter]
    exact foldl_add_sum (fun a => (s.bullets.map (pairScore a)).sum) s.aliens s.score

-- C3 ---------------------------------------------------------------------

-- The stopped record playerAlienCollision and playerBulletCollision produce:
-- the input state with gameRunning cleared and the game-over message
-- interpolated with the state's score.
def gameOverOf (m : State) : State :=
  { m with gameRunning := false, message := MESSAGE_SCORE m.score }

/-- C3 (amended): for every running state and input such that, when
playerAlienCollision runs within the tick (i.e. in the state produced by the
six preceding stages), the player rectangle overlaps some alien rectangle,
the state produced by the full transition has gameRunning = false and its
message is the fixed game-over text interpolated with the score the state had
when the collision stage ran — which may differ from the final score, because
alienBulletCollision can still award kill points later in the same tick. -/
theorem C3_game_over (s : State) (i : Input) (hrun : s.gameRunning = true)
    (hcol : (preCollisionState s i).aliens.any (fun a =>
        rectangleRectangleCollide (preCollisionState s i).player.rect a.rect) = true) :
    (transition s i).gameRunning = false ∧
    (transition s i).message = MESSAGE_SCORE (preCollisionState s i).score := by
  rw [transition_running s i hrun]
  have h7 : playerAlienCollision (preCollisionState s i) i =
      gameOverOf (preCollisionState s i) := by
    simp only [playerAlienCollision, gameOverOf]
    rw [hcol]
    simp
  rw [h7]
  have h8run : (playerBulletCollision (gameOverOf (preCollisionState s i)) i).gameRunning
        = false ∧
      (playerBulletCollision (gameOverOf (preCollisionState s i)) i).message =
        MESSAGE_SCORE (preCollisionState s i).score := by
    rcases pbc_cases (gameOverOf (preCollisionState s i)) i with ⟨hg, hmsg⟩ | ⟨hg, hmsg⟩
    · exact ⟨hg, hmsg⟩
    · exact ⟨hg, hmsg⟩
  constructor
  · rw [ar_gameRunning, nma_gameRunning, sbc_gameRunning, abc_gameRunning]
    exact h8run.1
  · rw [ar_message, nma_message, sbc_message, abc_message]
    exact h8run.2

set_option maxRecDepth 40000 in
/-- C3 counterexample: after the movement stages the player overlaps one alien
(game over) while a player-shot bullet kills a different alien in the same
tick; the final state has gameRunning = false, final score 400, but the
message interpolates the collision-time score 0 — not the final score, as the
claim requires. -/
theorem C3_final_score_counterexample :
    c3state.gameRunning = true ∧
    (preCollisionState c3state emptyInput).aliens.any (fun a =>
      rectangleRectangleCollide
        (preCollisionState c3state emptyInput).player.rect a.rect) = true ∧
    (transition c3state emptyInput).gameRunning = false ∧
    (transition c3state emptyInput).score = 400 ∧
    (transition c3state emptyInput).message = MESSAGE_SCORE 0 ∧
    (transition c3state emptyInput).message ≠
      MESSAGE_SCORE ((transition c3state emptyInput).score) :=
  ⟨rfl, by decide, by decide, by decide, by decide, by decide⟩

set_option maxRecDepth 40000 in
/-- Witness for the amended C3 at the same concrete collision state. -/
theorem C3_game_over_witness :
    c3state.gameRunning = true ∧
    (preCollisionState c3state emptyInput).aliens.any (fun a =>
      rectangleRectangleCollide
        (preCollisionState c3state emptyInput).player.rect a.rect) = true ∧
    ((transition c3state emptyInput).gameRunning = false ∧
      (transition c3state emptyInput).message =
        MESSAGE_SCORE (preCollisionState c3state emptyInput).score) :=
  ⟨rfl, by decide, C3_game_over c3state emptyInput rfl (by decide)⟩
